import Mathlib

/-!
A verification development for the `senseic` declaration formatter
(`src/tooling/nargo_fmt/src/formatter/global.rs`) and the keyword-builtin
completion table (`src/tooling/lsp/src/requests/completion/builtins.rs`).

The two Rust source files are embedded shallowly.  Machinery that the
source files use but that lives outside the provided sources (the chunk
infrastructure, the visibility/keyword writers, the shared let-or-global
core formatter, the pattern sub-formatter, the parser) is modelled from
the specification; each such definition carries a doc comment starting
with `Modelled from the spec:`.
-/

namespace Senseic

/-- Visibility of an item, as used by `format_global` (`ItemVisibility` in
`noirc_frontend`): private (no text), `pub`, or `pub(crate)`. -/
inductive ItemVisibility where
  | Private
  | Public
  | PublicCrate
deriving DecidableEq

/-- Modelled from the spec: the pattern node of a declaration (`Pattern` in
`noirc_frontend`, not among the provided sources).  Field shapes follow the
spec data model `{Identifier(name, is_mut), MutWrapped(inner), Tuple(...),
Struct(...), Parenthesized(...)}` together with the `Interned` variant and
the three-field `Mutable` wrapper visible in the `format_global` match. -/
inductive Pattern where
  | identifier (name : String) (is_mut : Bool)
  | mutable (inner : Pattern) (span : Nat) (isSynthesized : Bool)
  | tuple (elems : List Pattern)
  | struct (path : String) (fields : List Pattern)
  | parenthesized (inner : Pattern)
  | interned (id : Nat)

/-- The declaration statement consumed by `format_global` (`LetStatement`):
pattern, optional type annotation, initializer expression, `comptime` flag
and attached attributes.  Type, expression and attribute payloads are kept
as the opaque text their (external) sub-formatters render them to. -/
structure LetStatement where
  pattern : Pattern
  type : Option String
  expression : String
  comptime : Bool
  attributes : List String

/-- The closed keyword enumeration of the language, taken from the
exhaustive match of `keyword_builtin_function` in
`src/tooling/lsp/src/requests/completion/builtins.rs`. -/
inductive Keyword where
  | As
  | Assert
  | AssertEq
  | Break
  | CallData
  | Comptime
  | Constrain
  | Continue
  | Contract
  | Crate
  | Dep
  | Else
  | Enum
  | Fn
  | For
  | Global
  | If
  | Impl
  | In
  | Let
  | Loop
  | Match
  | Mod
  | Mut
  | Pub
  | Return
  | ReturnData
  | Struct
  | Super
  | Trait
  | Type
  | Unchecked
  | Unconstrained
  | UnsafeKw
  | Use
  | Where
  | While
deriving DecidableEq

/-- Modelled from the spec: the surface text written by `write_keyword`
(the token definitions are external to the provided sources). -/
def Keyword.text : Keyword → String
  | Keyword.As => "as"
  | Keyword.Assert => "assert"
  | Keyword.AssertEq => "assert_eq"
  | Keyword.Break => "break"
  | Keyword.CallData => "call_data"
  | Keyword.Comptime => "comptime"
  | Keyword.Constrain => "constrain"
  | Keyword.Continue => "continue"
  | Keyword.Contract => "contract"
  | Keyword.Crate => "crate"
  | Keyword.Dep => "dep"
  | Keyword.Else => "else"
  | Keyword.Enum => "enum"
  | Keyword.Fn => "fn"
  | Keyword.For => "for"
  | Keyword.Global => "global"
  | Keyword.If => "if"
  | Keyword.Impl => "impl"
  | Keyword.In => "in"
  | Keyword.Let => "let"
  | Keyword.Loop => "loop"
  | Keyword.Match => "match"
  | Keyword.Mod => "mod"
  | Keyword.Mut => "mut"
  | Keyword.Pub => "pub"
  | Keyword.Return => "return"
  | Keyword.ReturnData => "return_data"
  | Keyword.Struct => "struct"
  | Keyword.Super => "super"
  | Keyword.Trait => "trait"
  | Keyword.Type => "type"
  | Keyword.Unchecked => "unchecked"
  | Keyword.Unconstrained => "unconstrained"
  | Keyword.UnsafeKw => "unsafe"
  | Keyword.Use => "use"
  | Keyword.Where => "where"
  | Keyword.While => "while"

/-- The single failure of the embedded formatter: the `unreachable!` arm of
`format_global` for pattern shapes that are illegal at global scope.  The
carried message is the panic message of the source. -/
inductive FmtError where
  | unreachable (msg : String)
deriving DecidableEq

/-- Modelled from the spec: a member of a `ChunkGroup` (§3, §4.3).  A chunk
is either plain text, a space-or-line separator (a single space when the
enclosing group renders flat, a line break plus one indentation step when it
renders broken), a forced hard break (`is_hard_break`), or a nested group
rendered as one flat-or-broken unit. -/
inductive ChunkTree where
  | text (s : String)
  | spaceOrLine
  | hardBreak
  | group (members : List ChunkTree)

/-- Modelled from the spec: a `ChunkGroup` is an ordered sequence of
chunks and nested groups (§3). -/
abbrev ChunkGroup := List ChunkTree

/-- Modelled from the spec: the text written by `format_item_visibility` —
"visibility text + space (if Public/PublicCrate)" (§4.2 step 2), and
nothing for a private item. -/
def formatItemVisibility : ItemVisibility → String
  | ItemVisibility.Private => ""
  | ItemVisibility.Public => "pub "
  | ItemVisibility.PublicCrate => "pub(crate) "

mutual

/-- Modelled from the spec: the external pattern sub-formatter, rendering a
pattern to its canonical text.  A mutable pattern renders as `mut x` (the
source comment: "A mutable pattern would be `mut x`"); the other shapes
render in the usual surface syntax. -/
def renderPattern : Pattern → String
  | Pattern.identifier name m => (if m then "mut " else "") ++ name
  | Pattern.mutable inner _ _ => "mut " ++ renderPattern inner
  | Pattern.tuple elems => "(" ++ renderPatternList elems ++ ")"
  | Pattern.struct path fields => path ++ " \x7b " ++ renderPatternList fields ++ " \x7d"
  | Pattern.parenthesized inner => "(" ++ renderPattern inner ++ ")"
  | Pattern.interned id => "?interned" ++ toString id

/-- Comma-separated rendering of a list of patterns. -/
def renderPatternList : List Pattern → String
  | [] => ""
  | [p] => renderPattern p
  | p :: ps => renderPattern p ++ ", " ++ renderPatternList ps

end

/-- Modelled from the spec: the shared let-or-global core formatter
(`format_let_or_global`, external to the provided sources), following §4.2
step 3: keyword text, space, canonical-pattern rendering, optional
`": " + type`, optional `" = " + initializer`, trailing `";"`.  The
initializer is separated by a space-or-line chunk so that an overlong
declaration breaks after the `=`, indenting the initializer one step while
the keyword/pattern/type prefix stays on the first line (§8 scenario 6).
Attribute chunks, when the caller passes any, precede the body each on its
own line; `format_global` always passes the empty list here. -/
def formatLetOrGlobal (kw : Keyword) (pattern : Pattern) (typ : Option String)
    (value : Option String) (attributes : List String) : ChunkGroup :=
  let head := Keyword.text kw ++ " " ++ renderPattern pattern ++
    (match typ with
     | some t => ": " ++ t
     | none => "")
  (attributes.map fun a => ChunkTree.text (a ++ "\n")) ++
    (match value with
     | some v => [ChunkTree.text (head ++ " ="), ChunkTree.spaceOrLine, ChunkTree.text (v ++ ";")]
     | none => [ChunkTree.text (head ++ ";")])

/-- Embedding of `ChunkFormatter::format_global`
(`src/tooling/nargo_fmt/src/formatter/global.rs`, lines 23-73).  The chunk
for the visibility is appended first, then a `comptime ` chunk when the
statement is comptime; the pattern match then either keeps an identifier
pattern unchanged, or — for a mutable pattern, which is how the grammar
stores `mut global x` — writes a `mut ` chunk now and continues with the
unwrapped inner pattern; tuple, struct, parenthesized and interned patterns
hit the `unreachable!` arm.  The shared core formatter is invoked once, on
the resulting pattern, with `Keyword::Global`, the declared type, `Some` of
the initializer expression and an empty attribute list; here that single
call is written in each successful arm. -/
def ChunkFormatter.formatGlobal (ls : LetStatement) (visibility : ItemVisibility) :
    Except FmtError ChunkGroup :=
  let g : ChunkGroup := [ChunkTree.text (formatItemVisibility visibility)]
  let g : ChunkGroup :=
    if ls.comptime then g ++ [ChunkTree.text (Keyword.text Keyword.Comptime ++ " ")] else g
  match ls.pattern with
  | Pattern.identifier name m =>
      Except.ok (g ++ [ChunkTree.group (formatLetOrGlobal Keyword.Global
        (Pattern.identifier name m) ls.type (some ls.expression) [])])
  | Pattern.mutable inner _ _ =>
      Except.ok (g ++ [ChunkTree.text (Keyword.text Keyword.Mut ++ " ")] ++
        [ChunkTree.group (formatLetOrGlobal Keyword.Global
          inner ls.type (some ls.expression) [])])
  | Pattern.tuple _ | Pattern.struct _ _ | Pattern.parenthesized _ | Pattern.interned _ =>
      Except.error (FmtError.unreachable
        ("Global pattern cannot be a tuple, struct, parenthesized or interned"))

/-- One indentation step is four columns (the indentation unit of the
formatter); `indent` counts steps. -/
def indentString (indent : Nat) : String :=
  String.mk (List.replicate (4 * indent) (Char.ofNat 32))

mutual

/-- Flattened single-line width of one chunk (§4.3). -/
def flatWidth : ChunkTree → Nat
  | ChunkTree.text s => s.length
  | ChunkTree.spaceOrLine => 1
  | ChunkTree.hardBreak => 0
  | ChunkTree.group ms => flatWidthList ms

/-- Flattened single-line width of a member sequence (§4.3). -/
def flatWidthList : List ChunkTree → Nat
  | [] => 0
  | m :: ms => flatWidth m + flatWidthList ms

end

mutual

/-- Whether a chunk contains a forced hard break, which forbids flat
rendering of every enclosing group (§4.3). -/
def hasHardBreak : ChunkTree → Bool
  | ChunkTree.text _ => false
  | ChunkTree.spaceOrLine => false
  | ChunkTree.hardBreak => true
  | ChunkTree.group ms => hasHardBreakList ms

/-- Whether any member of a sequence contains a forced hard break. -/
def hasHardBreakList : List ChunkTree → Bool
  | [] => false
  | m :: ms => hasHardBreak m || hasHardBreakList ms

end

mutual

/-- Single-line (flat) text of one chunk: members concatenated, each
space-or-line separator a single space (§4.3). -/
def flatText : ChunkTree → String
  | ChunkTree.text s => s
  | ChunkTree.spaceOrLine => " "
  | ChunkTree.hardBreak => "\n"
  | ChunkTree.group ms => flatTextList ms

/-- Single-line (flat) text of a member sequence. -/
def flatTextList : List ChunkTree → String
  | [] => ""
  | m :: ms => flatText m ++ flatTextList ms

end

mutual

/-- Modelled from the spec: the `GroupRenderer` (§4.3).  A group whose
flattened width fits within the maximum width at the current indentation,
and which contains no forced hard break, renders flat; at exactly the
maximum width flat is preferred.  Otherwise the group renders broken:
members render in order, each space-or-line separator becoming a line
break followed by one extra indentation step, nested groups recursing
under the same rule. -/
def renderTree (indent maxWidth : Nat) : ChunkTree → String
  | ChunkTree.text s => s
  | ChunkTree.spaceOrLine => " "
  | ChunkTree.hardBreak => "\n" ++ indentString indent
  | ChunkTree.group ms =>
      if 4 * indent + flatWidthList ms ≤ maxWidth && !hasHardBreakList ms then
        flatTextList ms
      else
        renderBrokenList indent maxWidth ms

/-- Broken rendering of a member sequence: separators become line breaks
indented one extra step; other members render in place. -/
def renderBrokenList (indent maxWidth : Nat) : List ChunkTree → String
  | [] => ""
  | ChunkTree.spaceOrLine :: ms =>
      "\n" ++ indentString (indent + 1) ++ renderBrokenList indent maxWidth ms
  | ChunkTree.hardBreak :: ms =>
      "\n" ++ indentString (indent + 1) ++ renderBrokenList indent maxWidth ms
  | ChunkTree.text s :: ms => s ++ renderBrokenList indent maxWidth ms
  | ChunkTree.group gms :: ms =>
      renderTree indent maxWidth (ChunkTree.group gms) ++ renderBrokenList indent maxWidth ms

end

/-- Render a whole `ChunkGroup` as one flat-or-broken unit
(`format_chunk_group`). -/
def renderGroup (indent maxWidth : Nat) (g : ChunkGroup) : String :=
  renderTree indent maxWidth (ChunkTree.group g)

/-- Embedding of `Formatter::format_global`
(`src/tooling/nargo_fmt/src/formatter/global.rs`, lines 9-21), together
with the enclosing pass it writes into.  The secondary attributes are
formatted first, each on its own indented line (the external attribute
sub-formatter renders the attribute text); then the indentation is written
and the chunk group rendered; the fragment ends with a newline (§6).  The
`unreachable!` of the chunk-level formatter aborts the pass: in Rust the panic
unwinds and the in-progress buffer is discarded, which the `Except` error
case models — an error produces no text fragment at all. -/
def Formatter.formatGlobal (ls : LetStatement) (visibility : ItemVisibility)
    (indent maxWidth : Nat) : Except FmtError String :=
  let attrText := String.join (ls.attributes.map fun a => indentString indent ++ a ++ "\n")
  match ChunkFormatter.formatGlobal ls visibility with
  | Except.ok g =>
      Except.ok (attrText ++ indentString indent ++ renderGroup indent maxWidth g ++ "\n")
  | Except.error e => Except.error e

/-- The pattern shapes that hit the `unreachable!` arm of `format_global`:
tuple, struct, parenthesized and interned patterns. -/
def isBadGlobalPattern : Pattern → Bool
  | Pattern.tuple _ => true
  | Pattern.struct _ _ => true
  | Pattern.parenthesized _ => true
  | Pattern.interned _ => true
  | _ => false

/-- Whether a pattern is the mut-wrapper form (`Pattern::Mutable`), the
shape that makes `format_global` write the `mut ` modifier chunk. -/
def isMutWrappedPattern : Pattern → Bool
  | Pattern.mutable _ _ _ => true
  | _ => false

/-- The pattern that `format_global` hands to the shared core formatter:
the inner pattern of a mut wrapper, and any other pattern unchanged. -/
def stripMutWrapper : Pattern → Pattern
  | Pattern.mutable inner _ _ => inner
  | p => p

/-- The modifier-prefix chunk sequence claimed by the spec (§4.2 step 2):
visibility text, then a `comptime ` chunk when requested, then a `mut `
chunk when the mut modifier applies — in that fixed order. -/
def modifierChunks (visibility : ItemVisibility) (comptime mutModifier : Bool) : ChunkGroup :=
  [ChunkTree.text (formatItemVisibility visibility)]
    ++ (if comptime then [ChunkTree.text (Keyword.text Keyword.Comptime ++ " ")] else [])
    ++ (if mutModifier then [ChunkTree.text (Keyword.text Keyword.Mut ++ " ")] else [])

/-- How many top-level chunks of a group are exactly the emitted `mut `
keyword chunk.  Keyword chunks are emitted only at the top level of the
group built by `format_global`; the nested core group holds the delegated
pattern, type and initializer renderings. -/
def mutChunkCount : ChunkGroup → Nat
  | [] => 0
  | ChunkTree.text s :: rest =>
      (if s = Keyword.text Keyword.Mut ++ " " then 1 else 0) + mutChunkCount rest
  | _ :: rest => mutChunkCount rest

/-- The pattern shapes the parser actually produces for a global
declaration (§3 invariants, §4.1): a plain identifier, or the mut wrapper
around a plain identifier — the grammar stores `mut global x` as the
wrapper, never as an identifier flag, and never nests two mut markers. -/
def isCanonicalGlobalPattern : Pattern → Bool
  | Pattern.identifier _ m => !m
  | Pattern.mutable (Pattern.identifier _ m) _ _ => !m
  | _ => false

/-- Modelled from the spec: the external parser (out of scope per §1)
applied to the output of the formatter.  Re-parsing the emitted text
reproduces the declaration: whitespace is discarded, delegated type,
expression and attribute renderings re-parse to themselves, and an emitted
`mut` modifier is stored again as the mut-wrapper pattern (§4.1: the
grammar stores `mut global x` this way); source spans are not retained
(§6), so the wrapper span and synthesized flag are fresh. -/
def reparseGlobal (ls : LetStatement) : LetStatement :=
  LetStatement.mk
    (match ls.pattern with
     | Pattern.mutable inner _ _ => Pattern.mutable inner 0 false
     | p => p)
    ls.type ls.expression ls.comptime ls.attributes

/-- Modelled from the spec: the user-visible file after a formatting run
(§7) — the formatted text when the pass succeeds, the untouched original
when it fails (a panic discards the in-progress buffer and nothing is
written back). -/
def observedFile (result : Except FmtError String) (original : String) : String :=
  match result with
  | Except.ok text => text
  | Except.error _ => original

/-- The attribute lines written before a declaration body: one indented
line per attribute, in the original order. -/
def attrLinesText (attributes : List String) (indent : Nat) : String :=
  String.join (attributes.map fun a => indentString indent ++ a ++ "\n")

/-- String concatenation is associative (helper for rearranging rendered
fragments). -/
lemma string_append_assoc (a b c : String) : a ++ b ++ c = a ++ (b ++ c) := by
  obtain ⟨la⟩ := a
  obtain ⟨lb⟩ := b
  obtain ⟨lc⟩ := c
  show String.mk (la ++ lb ++ lc) = String.mk (la ++ (lb ++ lc))
  rw [List.append_assoc]

/-- The modifier prefix contains the `mut ` keyword chunk at most once,
whatever the visibility and flags, and the nested core group contributes
no top-level keyword chunk. -/
lemma mutChunkCount_modifierChunks (visibility : ItemVisibility) (c m : Bool)
    (core : ChunkGroup) :
    mutChunkCount (modifierChunks visibility c m ++ [ChunkTree.group core]) ≤ 1 := by
  cases visibility <;> cases c <;> cases m <;>
    first
      | exact Nat.zero_le 1
      | exact Nat.le_refl 1

/-- C1: for every global declaration that formats (its pattern is not one
of the illegal shapes), the chunk group built by `format_global` is the
modifier prefix — visibility text, then `comptime ` when the statement is
comptime, then `mut ` when the pattern carries the mut wrapper, in that
fixed order — followed by the core group whose first chunk starts with the
`global` keyword; and the `mut ` keyword chunk occurs at most once in the
emitted group. -/
theorem format_global_modifier_order (ls : LetStatement) (visibility : ItemVisibility)
    (h : isBadGlobalPattern ls.pattern = false) :
    ChunkFormatter.formatGlobal ls visibility =
      Except.ok (modifierChunks visibility ls.comptime (isMutWrappedPattern ls.pattern) ++
        [ChunkTree.group (formatLetOrGlobal Keyword.Global (stripMutWrapper ls.pattern)
          ls.type (some ls.expression) [])]) ∧
    mutChunkCount (modifierChunks visibility ls.comptime (isMutWrappedPattern ls.pattern) ++
        [ChunkTree.group (formatLetOrGlobal Keyword.Global (stripMutWrapper ls.pattern)
          ls.type (some ls.expression) [])]) ≤ 1 := by
  obtain ⟨p, t, e, c, attrs⟩ := ls
  cases p with
  | identifier name m =>
      cases c <;> exact ⟨rfl, mutChunkCount_modifierChunks visibility _ _ _⟩
  | mutable inner sp sy =>
      cases c <;> exact ⟨rfl, mutChunkCount_modifierChunks visibility _ _ _⟩
  | tuple es => simp [isBadGlobalPattern] at h
  | struct pa fs => simp [isBadGlobalPattern] at h
  | parenthesized q => simp [isBadGlobalPattern] at h
  | interned i => simp [isBadGlobalPattern] at h

/-- Witness for C1: the modifier-order theorem applied to the concrete
declaration `pub comptime mut global x: Field = 1`. -/
theorem format_global_modifier_order_witness :
    ChunkFormatter.formatGlobal
        (LetStatement.mk (Pattern.mutable (Pattern.identifier ("x") false) 3 true)
          (some ("Field")) ("1") true []) ItemVisibility.Public =
      Except.ok (modifierChunks ItemVisibility.Public true true ++
        [ChunkTree.group (formatLetOrGlobal Keyword.Global (Pattern.identifier ("x") false)
          (some ("Field")) (some ("1")) [])]) ∧
    mutChunkCount (modifierChunks ItemVisibility.Public true true ++
        [ChunkTree.group (formatLetOrGlobal Keyword.Global (Pattern.identifier ("x") false)
          (some ("Field")) (some ("1")) [])]) ≤ 1 :=
  format_global_modifier_order
    (LetStatement.mk (Pattern.mutable (Pattern.identifier ("x") false) 3 true)
      (some ("Field")) ("1") true []) ItemVisibility.Public rfl

/-- C2: for a global whose pattern is the mut wrapper, `format_global`
emits the `mut ` keyword chunk in the modifier prefix and hands the core
formatter the unwrapped inner pattern, so the wrapper is not rendered
again inside the pattern. -/
theorem format_global_mut_wrapper (inner : Pattern) (sp : Nat) (sy : Bool)
    (typ : Option String) (expr : String) (c : Bool) (attrs : List String)
    (visibility : ItemVisibility) :
    ChunkFormatter.formatGlobal
        (LetStatement.mk (Pattern.mutable inner sp sy) typ expr c attrs) visibility =
      Except.ok (modifierChunks visibility c true ++
        [ChunkTree.group (formatLetOrGlobal Keyword.Global inner typ (some expr) [])]) := by
  cases c <;> rfl

/-- C3: tuple, struct, parenthesized and interned patterns make
`format_global` fail with the internal-consistency `unreachable!` error,
and an identifier or mut-wrapper pattern never reaches that branch. -/
theorem format_global_pattern_contract (ls : LetStatement) (visibility : ItemVisibility) :
    (isBadGlobalPattern ls.pattern = true →
      ChunkFormatter.formatGlobal ls visibility =
        Except.error (FmtError.unreachable
          ("Global pattern cannot be a tuple, struct, parenthesized or interned"))) ∧
    (isBadGlobalPattern ls.pattern = false →
      ∃ g : ChunkGroup, ChunkFormatter.formatGlobal ls visibility = Except.ok g) := by
  obtain ⟨p, t, e, c, attrs⟩ := ls
  cases p with
  | identifier name m =>
      exact ⟨fun h => by simp [isBadGlobalPattern] at h, fun _ => ⟨_, rfl⟩⟩
  | mutable inner sp sy =>
      exact ⟨fun h => by simp [isBadGlobalPattern] at h, fun _ => ⟨_, rfl⟩⟩
  | tuple es =>
      exact ⟨fun _ => rfl, fun h => by simp [isBadGlobalPattern] at h⟩
  | struct pa fs =>
      exact ⟨fun _ => rfl, fun h => by simp [isBadGlobalPattern] at h⟩
  | parenthesized q =>
      exact ⟨fun _ => rfl, fun h => by simp [isBadGlobalPattern] at h⟩
  | interned i =>
      exact ⟨fun _ => rfl, fun h => by simp [isBadGlobalPattern] at h⟩

/-- Witness for C3: a tuple-pattern global hits the fatal branch, and an
identifier-pattern global formats successfully. -/
theorem format_global_pattern_contract_witness :
    ChunkFormatter.formatGlobal
        (LetStatement.mk (Pattern.tuple []) none ("1") false []) ItemVisibility.Private =
      Except.error (FmtError.unreachable
        ("Global pattern cannot be a tuple, struct, parenthesized or interned")) ∧
    ∃ g : ChunkGroup, ChunkFormatter.formatGlobal
        (LetStatement.mk (Pattern.identifier ("x") false) none ("1") false [])
        ItemVisibility.Private = Except.ok g :=
  ⟨(format_global_pattern_contract
      (LetStatement.mk (Pattern.tuple []) none ("1") false []) ItemVisibility.Private).1 rfl,
   (format_global_pattern_contract
      (LetStatement.mk (Pattern.identifier ("x") false) none ("1") false [])
      ItemVisibility.Private).2 rfl⟩

/-- C4: the declaration parsed from `pub  global  x  :  Field  =  1  ;`
(a public global `x` of type `Field` initialized to `1`; the extra input
whitespace is discarded by the external parser) formats, at indentation 0
and the configured width 100, to exactly `pub global x: Field = 1;` plus a
newline. -/
theorem format_global_with_type_canonical :
    Formatter.formatGlobal
        (LetStatement.mk (Pattern.identifier ("x") false) (some ("Field")) ("1") false [])
        ItemVisibility.Public 0 100 =
      Except.ok ("pub global x: Field = 1;\n") := by
  rfl

/-- C5: the output of a formatted global is the attribute lines — one
indented line per attribute, in the original order — followed by the body
text of the same declaration with no attributes; and the chunk group that
drives the flat-or-broken layout decision is computed without the
attributes at all (`format_global` passes an empty attribute list to the
core formatter). -/
theorem format_global_attribute_lines (ls : LetStatement) (visibility : ItemVisibility)
    (indent maxWidth : Nat) :
    Formatter.formatGlobal ls visibility indent maxWidth =
      Except.map (fun body => attrLinesText ls.attributes indent ++ body)
        (Formatter.formatGlobal
          (LetStatement.mk ls.pattern ls.type ls.expression ls.comptime [])
          visibility indent maxWidth) ∧
    ChunkFormatter.formatGlobal ls visibility =
      ChunkFormatter.formatGlobal
        (LetStatement.mk ls.pattern ls.type ls.expression ls.comptime []) visibility := by
  obtain ⟨p, t, e, c, attrs⟩ := ls
  refine ⟨?_, rfl⟩
  have hc : ChunkFormatter.formatGlobal (LetStatement.mk p t e c attrs) visibility =
      ChunkFormatter.formatGlobal (LetStatement.mk p t e c []) visibility := rfl
  cases h : ChunkFormatter.formatGlobal (LetStatement.mk p t e c []) visibility with
  | ok g =>
      simp [Formatter.formatGlobal, hc, h, Except.map, attrLinesText, String.join,
        string_append_assoc]
  | error er =>
      simp [Formatter.formatGlobal, hc, h, Except.map]

/-- C6: formatting a declaration is atomic.  When a declaration fails to
format (its pattern is one of the illegal shapes), the whole pass yields
an error carrying no text — even though the attribute lines are processed
before the failure point, no partial text (attribute lines, indentation)
is observable — and the user-visible file is the untouched original. -/
theorem format_global_error_leaves_file_untouched (ls : LetStatement)
    (visibility : ItemVisibility) (indent maxWidth : Nat) (original : String)
    (h : isBadGlobalPattern ls.pattern = true) :
    Formatter.formatGlobal ls visibility indent maxWidth =
      Except.error (FmtError.unreachable
        ("Global pattern cannot be a tuple, struct, parenthesized or interned")) ∧
    observedFile (Formatter.formatGlobal ls visibility indent maxWidth) original =
      original := by
  obtain ⟨p, t, e, c, attrs⟩ := ls
  cases p <;> simp [isBadGlobalPattern] at h <;> exact ⟨rfl, rfl⟩

/-- Witness for C6: a tuple-pattern global with a pending attribute line
contributes nothing to the output; the file stays as it was. -/
theorem format_global_error_leaves_file_untouched_witness :
    Formatter.formatGlobal
        (LetStatement.mk (Pattern.tuple []) none ("1") false [("#[abi(foo)]")])
        ItemVisibility.Private 0 100 =
      Except.error (FmtError.unreachable
        ("Global pattern cannot be a tuple, struct, parenthesized or interned")) ∧
    observedFile
        (Formatter.formatGlobal
          (LetStatement.mk (Pattern.tuple []) none ("1") false [("#[abi(foo)]")])
          ItemVisibility.Private 0 100)
        ("global (a, b) = (1, 2);\n") = ("global (a, b) = (1, 2);\n") :=
  format_global_error_leaves_file_untouched
    (LetStatement.mk (Pattern.tuple []) none ("1") false [("#[abi(foo)]")])
    ItemVisibility.Private 0 100 ("global (a, b) = (1, 2);\n") rfl

/-- C7: formatting is idempotent.  For a declaration whose pattern has the
canonical shape the parser produces for globals, re-parsing the emitted
text (modelled by `reparseGlobal`) and formatting again reproduces the
output byte for byte, at every indentation and width configuration — the
mut modifier round-trips through the mut-wrapper pattern. -/
theorem format_global_idempotent (ls : LetStatement) (visibility : ItemVisibility)
    (indent maxWidth : Nat) (h : isCanonicalGlobalPattern ls.pattern = true) :
    Formatter.formatGlobal (reparseGlobal ls) visibility indent maxWidth =
      Formatter.formatGlobal ls visibility indent maxWidth := by
  obtain ⟨p, t, e, c, attrs⟩ := ls
  cases p with
  | identifier name m => rfl
  | mutable inner sp sy =>
      cases inner with
      | identifier name m => rfl
      | mutable i2 sp2 sy2 => simp [isCanonicalGlobalPattern] at h
      | tuple es => simp [isCanonicalGlobalPattern] at h
      | struct pa fs => simp [isCanonicalGlobalPattern] at h
      | parenthesized q => simp [isCanonicalGlobalPattern] at h
      | interned i => simp [isCanonicalGlobalPattern] at h
  | tuple es => simp [isCanonicalGlobalPattern] at h
  | struct pa fs => simp [isCanonicalGlobalPattern] at h
  | parenthesized q => simp [isCanonicalGlobalPattern] at h
  | interned i => simp [isCanonicalGlobalPattern] at h

/-- Witness for C7: idempotence at the concrete declaration
`pub mut global counter: Field = 0`. -/
theorem format_global_idempotent_witness :
    Formatter.formatGlobal
        (reparseGlobal (LetStatement.mk (Pattern.mutable (Pattern.identifier ("counter") false) 5 true)
          (some ("Field")) ("0") false []))
        ItemVisibility.Public 0 100 =
      Formatter.formatGlobal
        (LetStatement.mk (Pattern.mutable (Pattern.identifier ("counter") false) 5 true)
          (some ("Field")) ("0") false [])
        ItemVisibility.Public 0 100 :=
  format_global_idempotent
    (LetStatement.mk (Pattern.mutable (Pattern.identifier ("counter") false) 5 true)
      (some ("Field")) ("0") false [])
    ItemVisibility.Public 0 100 rfl

/-- Counterexample to C8: for the pattern `Identifier("x", is_mut = true)`
(the identifier-with-flag shape of the spec data model), `format_global`
does not emit any `mut ` chunk in the modifier prefix — the identifier arm
of the match passes the pattern through untouched, flag included — and the
whole rendered output is `global mut x = 1;` (the mut marker surfaces
inside the delegated pattern rendering), not the `mut global x = 1;` the
claim requires. -/
theorem format_global_mut_flag_identifier_cex :
    ChunkFormatter.formatGlobal
        (LetStatement.mk (Pattern.identifier ("x") true) none ("1") false [])
        ItemVisibility.Private =
      Except.ok ([ChunkTree.text ("")] ++
        [ChunkTree.group (formatLetOrGlobal Keyword.Global (Pattern.identifier ("x") true)
          none (some ("1")) [])]) ∧
    mutChunkCount ([ChunkTree.text ("")] ++
        [ChunkTree.group (formatLetOrGlobal Keyword.Global (Pattern.identifier ("x") true)
          none (some ("1")) [])]) = 0 ∧
    Formatter.formatGlobal
        (LetStatement.mk (Pattern.identifier ("x") true) none ("1") false [])
        ItemVisibility.Private 0 100 =
      Except.ok ("global mut x = 1;\n") :=
  ⟨rfl, rfl, rfl⟩

/-- C8 as amended: for every identifier pattern, flagged or not,
`format_global` emits no `mut ` chunk in the modifier prefix and hands the
identifier pattern to the core formatter unchanged; the prefix `mut `
keyword arises only from the mut-wrapper pattern. -/
theorem format_global_identifier_no_prefix_mut (name : String) (m : Bool)
    (typ : Option String) (expr : String) (c : Bool) (attrs : List String)
    (visibility : ItemVisibility) :
    ChunkFormatter.formatGlobal
        (LetStatement.mk (Pattern.identifier name m) typ expr c attrs) visibility =
      Except.ok (modifierChunks visibility c false ++
        [ChunkTree.group (formatLetOrGlobal Keyword.Global (Pattern.identifier name m)
          typ (some expr) [])]) := by
  cases c <;> rfl

/-- C9: formatting is deterministic — two runs of the formatter on the
same declaration, visibility, indentation and maximum-width configuration
produce byte-identical results. -/
theorem format_global_deterministic (ls1 ls2 : LetStatement)
    (v1 v2 : ItemVisibility) (i1 i2 w1 w2 : Nat)
    (hls : ls1 = ls2) (hv : v1 = v2) (hi : i1 = i2) (hw : w1 = w2) :
    Formatter.formatGlobal ls1 v1 i1 w1 = Formatter.formatGlobal ls2 v2 i2 w2 := by
  subst hls
  subst hv
  subst hi
  subst hw
  rfl

/-- Witness for C9: determinism at the concrete declaration
`pub global x: Field = 1`. -/
theorem format_global_deterministic_witness :
    Formatter.formatGlobal
        (LetStatement.mk (Pattern.identifier ("x") false) (some ("Field")) ("1") false [])
        ItemVisibility.Public 0 100 =
      Formatter.formatGlobal
        (LetStatement.mk (Pattern.identifier ("x") false) (some ("Field")) ("1") false [])
        ItemVisibility.Public 0 100 :=
  format_global_deterministic
    (LetStatement.mk (Pattern.identifier ("x") false) (some ("Field")) ("1") false [])
    (LetStatement.mk (Pattern.identifier ("x") false) (some ("Field")) ("1") false [])
    ItemVisibility.Public ItemVisibility.Public 0 0 100 100 rfl rfl rfl rfl

/-- Info about a built-in function suggested for a keyword
(`BuiltInFunction` in
`src/tooling/lsp/src/requests/completion/builtins.rs`). -/
structure BuiltInFunction where
  name : String
  parameters : String
  description : String
deriving DecidableEq

/-- Embedding of `keyword_builtin_function`
(`src/tooling/lsp/src/requests/completion/builtins.rs`, lines 189-238):
`Assert` and `AssertEq` map to their built-in function info; every other
keyword maps to `None`. -/
def keywordBuiltinFunction : Keyword → Option BuiltInFunction
  | Keyword.Assert =>
      some (BuiltInFunction.mk ("assert") ("$\x7b1:predicate\x7d") ("fn(T)"))
  | Keyword.AssertEq =>
      some (BuiltInFunction.mk ("assert_eq") ("$\x7b1:lhs\x7d, $\x7b2:rhs\x7d") ("fn(T, T)"))
  | Keyword.As | Keyword.Break | Keyword.CallData | Keyword.Comptime
  | Keyword.Constrain | Keyword.Continue | Keyword.Contract | Keyword.Crate
  | Keyword.Dep | Keyword.Else | Keyword.Enum | Keyword.Fn | Keyword.For
  | Keyword.Global | Keyword.If | Keyword.Impl | Keyword.In | Keyword.Let
  | Keyword.Loop | Keyword.Match | Keyword.Mod | Keyword.Mut | Keyword.Pub
  | Keyword.Return | Keyword.ReturnData | Keyword.Struct | Keyword.Super
  | Keyword.Trait | Keyword.Type | Keyword.Unchecked | Keyword.Unconstrained
  | Keyword.UnsafeKw | Keyword.Use | Keyword.Where | Keyword.While => none

/-- The kind tag of a completion item (the LSP `CompletionItemKind` values
used by this module). -/
inductive CompletionItemKind where
  | FUNCTION
  | KEYWORD
  | STRUCT
  | METHOD
deriving DecidableEq

/-- How a function completion is inserted: just the name, or the name with
its parameter snippet (`FunctionCompletionKind`). -/
inductive FunctionCompletionKind where
  | Name
  | NameAndParameters
deriving DecidableEq

/-- A completion item as assembled by `builtin_functions_completion`:
label, insert text, item kind and description.  Modelled from the spec:
the external helpers `snippet_completion_item` and
`completion_item_with_trigger_parameter_hints_command` collapse to
constructing this record. -/
structure CompletionItem where
  label : String
  insertText : String
  itemKind : CompletionItemKind
  description : Option String
deriving DecidableEq

/-- The completion item built for one built-in function, following the
match in `builtin_functions_completion`: for `Name` the label and insert
text are the bare name; for `NameAndParameters` the label is
`name(…)` and the insert text is `name(parameters)`. -/
def builtinFunctionItem (f : BuiltInFunction) (k : FunctionCompletionKind) : CompletionItem :=
  match k with
  | FunctionCompletionKind.Name =>
      CompletionItem.mk f.name f.name CompletionItemKind.FUNCTION (some f.description)
  | FunctionCompletionKind.NameAndParameters =>
      CompletionItem.mk (f.name ++ "(…)") (f.name ++ "(" ++ f.parameters ++ ")")
        CompletionItemKind.FUNCTION (some f.description)

/-- Modelled from the spec: `name_matches` of the completion engine, which
the spec describes as a prefix-based filter over static name lists (§1) —
a candidate name matches when the typed text is a prefix of it. -/
def nameMatches (name pre : String) : Bool :=
  pre.data.isPrefixOf name.data

/-- Modelled from the spec: `Keyword::iter()` enumerates every keyword of
the closed enumeration exactly once; the listing order follows the match
of `keyword_builtin_function`. -/
def Keyword.iter : List Keyword :=
  [Keyword.Assert, Keyword.AssertEq, Keyword.As, Keyword.Break, Keyword.CallData,
   Keyword.Comptime, Keyword.Constrain, Keyword.Continue, Keyword.Contract,
   Keyword.Crate, Keyword.Dep, Keyword.Else, Keyword.Enum, Keyword.Fn,
   Keyword.For, Keyword.Global, Keyword.If, Keyword.Impl, Keyword.In,
   Keyword.Let, Keyword.Loop, Keyword.Match, Keyword.Mod, Keyword.Mut,
   Keyword.Pub, Keyword.Return, Keyword.ReturnData, Keyword.Struct,
   Keyword.Super, Keyword.Trait, Keyword.Type, Keyword.Unchecked,
   Keyword.Unconstrained, Keyword.UnsafeKw, Keyword.Use, Keyword.Where,
   Keyword.While]

/-- Embedding of `NodeFinder::builtin_functions_completion`
(`src/tooling/lsp/src/requests/completion/builtins.rs`, lines 16-51): walk
every keyword, and for each one carrying built-in function info whose name
matches the typed prefix, push one completion item; the pushed items are
returned in order. -/
def builtinFunctionsCompletion (pre : String) (k : FunctionCompletionKind) :
    List CompletionItem :=
  Keyword.iter.foldl
    (fun acc kw =>
      match keywordBuiltinFunction kw with
      | some f => if nameMatches f.name pre then acc ++ [builtinFunctionItem f k] else acc
      | none => acc)
    []

/-- C10: `keyword_builtin_function` returns `Some` exactly for `Assert`
(name `assert`, description `fn(T)`) and `AssertEq` (name `assert_eq`,
description `fn(T, T)`) and `None` for every other keyword; consequently
`builtin_functions_completion` offers exactly the `assert` item when the
prefix matches `assert` and the `assert_eq` item when the prefix matches
`assert_eq`, and nothing else. -/
theorem keyword_builtin_function_only_asserts :
    keywordBuiltinFunction Keyword.Assert =
        some (BuiltInFunction.mk ("assert") ("$\x7b1:predicate\x7d") ("fn(T)")) ∧
    keywordBuiltinFunction Keyword.AssertEq =
        some (BuiltInFunction.mk ("assert_eq") ("$\x7b1:lhs\x7d, $\x7b2:rhs\x7d") ("fn(T, T)")) ∧
    (∀ kw : Keyword, kw ≠ Keyword.Assert → kw ≠ Keyword.AssertEq →
      keywordBuiltinFunction kw = none) ∧
    (∀ (pre : String) (k : FunctionCompletionKind),
      builtinFunctionsCompletion pre k =
        (if nameMatches ("assert") pre then
          [builtinFunctionItem
            (BuiltInFunction.mk ("assert") ("$\x7b1:predicate\x7d") ("fn(T)")) k]
         else []) ++
        (if nameMatches ("assert_eq") pre then
          [builtinFunctionItem
            (BuiltInFunction.mk ("assert_eq") ("$\x7b1:lhs\x7d, $\x7b2:rhs\x7d") ("fn(T, T)")) k]
         else [])) := by
  refine ⟨rfl, rfl, ?_, ?_⟩
  · intro kw h1 h2
    cases kw <;> first | rfl | exact absurd rfl h1 | exact absurd rfl h2
  · intro pre k
    simp only [builtinFunctionsCompletion, Keyword.iter, keywordBuiltinFunction, List.foldl]
    cases h1 : nameMatches ("assert") pre <;> cases h2 : nameMatches ("assert_eq") pre <;>
      simp [h1, h2]

/-- Witness for C10: `Global` has no built-in function, and completing
with the typed prefix `assert` offers exactly the two items `assert` and
`assert_eq`. -/
theorem keyword_builtin_function_only_asserts_witness :
    keywordBuiltinFunction Keyword.Global = none ∧
    builtinFunctionsCompletion ("assert") FunctionCompletionKind.Name =
      [CompletionItem.mk ("assert") ("assert") CompletionItemKind.FUNCTION (some ("fn(T)")),
       CompletionItem.mk ("assert_eq") ("assert_eq") CompletionItemKind.FUNCTION
         (some ("fn(T, T)"))] := by
  refine ⟨keyword_builtin_function_only_asserts.2.2.1 Keyword.Global
    (by decide) (by decide), ?_⟩
  rw [keyword_builtin_function_only_asserts.2.2.2 ("assert") FunctionCompletionKind.Name]
  decide

end Senseic
